import Mathlib

/-!
Shallow embedding of the box-score ingestion pipeline
(`src/data_processor.py`, `src/scraper.py`, `src/enhanced_scraper.py`,
`src/scrape_recent_data.py`, `src/parse_data_copilot.py`, `src/models.py`).

Python dictionaries are association lists over a flat value type, HTML
table rows are lists of already-`get_text(strip=True)`-ed cell strings,
and the SQLAlchemy session is a committed store plus pending writes with
an explicit failure oracle for commits.
-/

/-- A Python value as it occurs in the parsed game dictionaries:
integers, floats (the cell texts are finite decimal literals, so floats
are represented exactly as rationals), strings, booleans and datetimes. -/
inductive PyVal where
  | vInt (n : Int)
  | vFloat (q : Rat)
  | vStr (s : String)
  | vBool (b : Bool)
  | vDate (y m d : Nat)
deriving DecidableEq, Repr

/-- A Python dict with string keys, as an insertion-ordered association list. -/
abbrev Dict := List (String × PyVal)

/-- Dict lookup, `d.get(k)` / `d[k]`. -/
def dget (d : Dict) (k : String) : Option PyVal :=
  (d.find? (fun p => p.1 == k)).map (fun p => p.2)

/-- Dict assignment `d[k] = v`: overwrite the entry in place if the key
exists (a Python dict holds each key once), otherwise append (CPython
dicts preserve insertion order). -/
def dset : Dict → String → PyVal → Dict
  | [], k, v => [(k, v)]
  | (k0, v0) :: tl, k, v =>
    if k0 == k then (k, v) :: tl else (k0, v0) :: dset tl k v

/-- `{**d, **e}`: fold the entries of `e` into `d`. -/
def dunion (d e : Dict) : Dict :=
  e.foldl (fun acc kv => dset acc kv.1 kv.2) d

/-- Whether a key is present in the dict. -/
def keyMem (d : Dict) (k : String) : Bool :=
  d.any (fun p => p.1 == k)

/-- A value handed to `_safe_int` / `_safe_float`: an HTML element
(`tag`, whose `get_text(strip=True)` yields the stored text), a plain
Python string (which has no `get_text` attribute), or `None`. -/
inductive PyCell where
  | tag (text : String)
  | txt (s : String)
  | null
deriving DecidableEq, Repr

/-- `cell.get_text(strip=True)`: succeeds only on an element; on a plain
string or `None` the attribute access raises `AttributeError` (`none`). -/
def getText : PyCell → Option String
  | .tag t => some t
  | .txt _ => none
  | .null => none

/-- Characters of a string with leading and trailing whitespace removed,
as Python `str.strip()` does before `int()`/`float()` conversion. -/
def pyStrip (s : String) : List Char :=
  ((s.data.dropWhile Char.isWhitespace).reverse.dropWhile Char.isWhitespace).reverse

/-- Numeric value of a digit list (no validity check). -/
def natVal (cs : List Char) : Nat :=
  cs.foldl (fun a c => a * 10 + (c.toNat - 48)) 0

/-- A nonempty all-digit list, or failure. -/
def digitsToNat? (cs : List Char) : Option Nat :=
  if cs ≠ [] ∧ cs.all Char.isDigit then some (natVal cs) else none

/-- Python `int(s)` on the decimal forms occurring in the tables:
optional surrounding whitespace, optional sign, then digits; anything
else raises `ValueError` (`none`). -/
def pyInt (s : String) : Option Int :=
  match pyStrip s with
  | [] => none
  | '+' :: cs => (digitsToNat? cs).map Int.ofNat
  | '-' :: cs => (digitsToNat? cs).map (fun n => -(n : Int))
  | cs => (digitsToNat? cs).map Int.ofNat

/-- Exponent suffix of a float literal: empty, or `e`/`E` with an
optionally signed digit string. -/
def parseExpPart (m : Rat) : List Char → Option Rat
  | [] => some m
  | e :: rest =>
    if e = 'e' ∨ e = 'E' then
      match rest with
      | '+' :: ds => (digitsToNat? ds).map (fun n => m * (10 : Rat) ^ n)
      | '-' :: ds => (digitsToNat? ds).map (fun n => m / (10 : Rat) ^ n)
      | ds => (digitsToNat? ds).map (fun n => m * (10 : Rat) ^ n)
    else none

/-- Unsigned float literal: `digits`, `digits.digits`, `digits.`, or
`.digits`, each with an optional exponent; at least one digit overall. -/
def parseFloatMag (cs : List Char) : Option Rat :=
  let ip := cs.takeWhile Char.isDigit
  let rest := cs.dropWhile Char.isDigit
  match rest with
  | '.' :: rest2 =>
    let fp := rest2.takeWhile Char.isDigit
    let rest3 := rest2.dropWhile Char.isDigit
    if ip = [] ∧ fp = [] then none
    else parseExpPart ((natVal ip : Rat) + (natVal fp : Rat) / (10 : Rat) ^ fp.length) rest3
  | _ =>
    if ip = [] then none
    else parseExpPart (natVal ip : Rat) rest

/-- Python `float(s)` on finite decimal literals (the only float texts
the stat tables carry; `inf`/`nan` spellings are out of scope):
optional surrounding whitespace, optional sign, then a decimal literal
with optional fraction and exponent; anything else raises `ValueError`. -/
def pyFloat (s : String) : Option Rat :=
  match pyStrip s with
  | [] => none
  | '+' :: cs => parseFloatMag cs
  | '-' :: cs => (parseFloatMag cs).map Neg.neg
  | cs => parseFloatMag cs

/-- `DataProcessor._safe_int` (src/data_processor.py lines 367-373):
`cell.get_text(strip=True)` then `int(text) if text and text != ''
else 0`, with `ValueError`/`AttributeError` both caught to `0`. -/
def safe_int (cell : PyCell) : Int :=
  match getText cell with
  | none => 0
  | some text =>
    if text = "" then 0
    else match pyInt text with
      | some n => n
      | none => 0

/-- `DataProcessor._safe_float` (src/data_processor.py lines 375-381):
same shape as `_safe_int` with `float(text)` and default `0.0`. -/
def safe_float (cell : PyCell) : Rat :=
  match getText cell with
  | none => 0
  | some text =>
    if text = "" then 0
    else match pyFloat text with
      | some q => q
      | none => 0

/-- The positional basic-schema mapping of `_parse_stats_table`
(offset 0 is the row label and is excluded). -/
def basicStatMapping : Nat → Option String
  | 1 => some "mp"
  | 2 => some "fg"
  | 3 => some "fga"
  | 4 => some "fg_pct"
  | 5 => some "fg3"
  | 6 => some "fg3a"
  | 7 => some "fg3_pct"
  | 8 => some "ft"
  | 9 => some "fta"
  | 10 => some "ft_pct"
  | 11 => some "orb"
  | 12 => some "drb"
  | 13 => some "trb"
  | 14 => some "ast"
  | 15 => some "stl"
  | 16 => some "blk"
  | 17 => some "tov"
  | 18 => some "pf"
  | 19 => some "pts"
  | _ => none

/-- The positional advanced-schema mapping of `_parse_stats_table`. -/
def advancedStatMapping : Nat → Option String
  | 1 => some "ts_pct"
  | 2 => some "efg_pct"
  | 3 => some "fg3a_rate"
  | 4 => some "fta_rate"
  | 5 => some "orb_pct"
  | 6 => some "drb_pct"
  | 7 => some "trb_pct"
  | 8 => some "ast_pct"
  | 9 => some "stl_pct"
  | 10 => some "blk_pct"
  | 11 => some "tov_pct"
  | 12 => some "usg_pct"
  | 13 => some "off_rtg"
  | 14 => some "def_rtg"
  | 15 => some "bpm"
  | _ => none

/-- `needle` occurs as a contiguous sublist of `hay`. -/
def listContainsInfix (needle : List Char) : List Char → Bool
  | [] => needle.isEmpty
  | c :: t => needle.isPrefixOf (c :: t) || listContainsInfix needle t

/-- Python `sub in s` substring test. -/
def strContains (s sub : String) : Bool :=
  listContainsInfix sub.data s.data

/-- Totals loop of `_parse_stats_table` (lines 307-318): walk
`cells[1:]` with 1-based offsets; for each mapped offset coerce the
cell text and assign the field.  The source extracts
`value = cell.get_text(strip=True)` and then calls `self._safe_int(value)`
/ `self._safe_float(value)` with the plain string, which is why the
coercions below receive `PyCell.txt`. -/
def totalsFold (mapping : Nat → Option String) (statType : String) :
    List String → Nat → Dict → Dict
  | [], _, st => st
  | c :: cs, i, st =>
    match mapping i with
    | some name =>
      let v : PyVal :=
        if statType = "basic" then
          if strContains name "pct" then .vFloat (safe_float (.txt c))
          else .vInt (safe_int (.txt c))
        else .vFloat (safe_float (.txt c))
      totalsFold mapping statType cs (i + 1) (dset st name v)
    | none => totalsFold mapping statType cs (i + 1) st

/-- One player row of the `_max` loop (lines 322-336): walk `cells[1:]`
with 1-based offsets and accumulate `stats[name_max] =
max(stats.get(name_max, 0), coerced value)`. -/
def maxRowFold (mapping : Nat → Option String) :
    List String → Nat → Dict → Dict
  | [], _, st => st
  | c :: cs, j, st =>
    match mapping j with
    | some name =>
      let key := name ++ "_max"
      let st' :=
        if strContains name "pct" then
          let cur : Rat := match dget st key with | some (.vFloat q) => q | _ => 0
          dset st key (.vFloat (max cur (safe_float (.txt c))))
        else
          let cur : Int := match dget st key with | some (.vInt n) => n | _ => 0
          dset st key (.vInt (max cur (safe_int (.txt c))))
      maxRowFold mapping cs (j + 1) st'
    | none => maxRowFold mapping cs (j + 1) st

/-- The `_max` loop over `rows[1:-1]` (header and totals excluded). -/
def maxFold (mapping : Nat → Option String) (rows : List (List String))
    (st : Dict) : Dict :=
  rows.foldl (fun acc row => maxRowFold mapping (row.drop 1) 1 acc) st

/-- `DataProcessor._parse_stats_table` (src/data_processor.py lines
274-341).  `table = none` models an absent table (`if not table`); a
row is the list of its cells' stripped texts.  The totals row is the
last row; for the basic schema the `_max` accumulation then runs over
`rows[1:-1]`. -/
def parse_stats_table (table : Option (List (List String)))
    (statType : String) : Dict :=
  match table with
  | none => []
  | some rows =>
    match rows with
    | [] => []
    | r0 :: rtl =>
      let totals := (r0 :: rtl).getLastD []
      let mapping := if statType = "basic" then basicStatMapping else advancedStatMapping
      let stats := totalsFold mapping statType (totals.drop 1) 1 []
      if statType = "basic" then
        maxFold mapping ((r0 :: rtl).drop 1 |>.dropLast) stats
      else stats

/-- Number of days in a month, with the Gregorian leap rule, as
`datetime.strptime` validates `%d`. -/
def daysInMonth (y m : Nat) : Nat :=
  if m = 1 ∨ m = 3 ∨ m = 5 ∨ m = 7 ∨ m = 8 ∨ m = 10 ∨ m = 12 then 31
  else if m = 4 ∨ m = 6 ∨ m = 9 ∨ m = 11 then 30
  else if m = 2 then
    if y % 4 = 0 ∧ (y % 100 ≠ 0 ∨ y % 400 = 0) then 29 else 28
  else 0

/-- Calendar validation of a candidate year/month/day triple, as
`strptime` performs it: year at least 1, month 1..12, day within the
month. -/
def ymdCheck (y m d : Nat) : Option (Nat × Nat × Nat) :=
  if 1 ≤ y ∧ 1 ≤ m ∧ m ≤ 12 ∧ 1 ≤ d ∧ d ≤ daysInMonth y m then
    some (y, m, d)
  else none

/-- `datetime.strptime(s, "%Y%m%d")` on the fixed-width `YYYYMMDD`
stems the game ids carry: eight digits forming a valid proleptic
Gregorian date; anything else raises (`none`). -/
def strptimeYmd (s : String) : Option (Nat × Nat × Nat) :=
  match s.data with
  | [a, b, c, d, e, f, g, h] =>
    if [a, b, c, d, e, f, g, h].all Char.isDigit then
      ymdCheck (natVal [a, b, c, d]) (natVal [e, f]) (natVal [g, h])
    else none
  | _ => none

/-- The line-score loop of `_parse_basic_game_info` (lines 107-113):
rows with at least two cells contribute `(cells[0], int(cells[-1]))`;
`int` on an unparsable final cell raises, aborting the whole parse. -/
def collectTeamScores : List (List String) → Option (List (String × Int))
  | [] => some []
  | r :: rs =>
    if 2 ≤ r.length then
      match pyInt (r.getLastD "") with
      | none => none
      | some sc => (collectTeamScores rs).map (fun ps => (r.headD "", sc) :: ps)
    else collectTeamScores rs

/-- The dictionary `_parse_basic_game_info` returns, as a record with
one field per key. -/
structure BasicGameInfo where
  game_id : String
  year : Nat
  month : Nat
  day : Nat
  season : Nat
  home_team : String
  away_team : String
  home_score : Int
  away_score : Int
  home_won : Bool
deriving DecidableEq, Repr

/-- `DataProcessor._parse_basic_game_info` (src/data_processor.py lines
79-136): date and season from the first eight id characters, then the
line-score table (given as its full `tr` list, header included; `none`
when absent).  Any exception — bad date, unparsable score — yields
`None`. -/
def parse_basic_game_info (gameId : String)
    (lineScore : Option (List (List String))) : Option BasicGameInfo :=
  match strptimeYmd ((gameId.data.take 8).asString) with
  | none => none
  | some (y, m, d) =>
    match lineScore with
    | none => none
    | some allRows =>
      if (allRows.drop 1).length < 2 then none
      else
        match collectTeamScores (allRows.drop 1) with
        | none => none
        | some pairs =>
          match pairs with
          | [(t1, s1), (t2, s2)] =>
            some { game_id := gameId, year := y, month := m, day := d,
                   season := if m < 7 then y - 1 else y,
                   home_team := t2, away_team := t1,
                   home_score := s2, away_score := s1,
                   home_won := decide (s2 > s1) }
          | _ => none

/-- The dict `_parse_basic_game_info` builds (lines 123-132), in key
order. -/
def BasicGameInfo.toDict (b : BasicGameInfo) : Dict :=
  [("game_id", .vStr b.game_id),
   ("date", .vDate b.year b.month b.day),
   ("season", .vInt (b.season : Int)),
   ("home_team", .vStr b.home_team),
   ("away_team", .vStr b.away_team),
   ("home_score", .vInt b.home_score),
   ("away_score", .vInt b.away_score),
   ("home_won", .vBool b.home_won)]

/-- The parts of a parsed box-score document the pipeline looks up by
table id: the line score, the per-side basic and advanced tables
(`box-home-game-basic`, ...), and the officials links (name, href).
`none` models an absent table (`soup.find` returned nothing). -/
structure Doc where
  lineScore : Option (List (List String))
  basicTable : String → Option (List (List String))
  advTable : String → Option (List (List String))
  officialLinks : Option (List (String × String))

/-- `DataProcessor._parse_team_stats` (lines 138-169): for each of
`home`, `away` with a basic table present, the combined dict
`{game_id, team, is_home, **basic_stats, **advanced_stats}`. -/
def parse_team_stats (doc : Doc) (gameId : String) : List Dict :=
  ["home", "away"].filterMap (fun team =>
    match doc.basicTable team with
    | none => none
    | some basicRows =>
      let basicStats := parse_stats_table (some basicRows) "basic"
      let advancedStats :=
        match doc.advTable team with
        | some advRows => parse_stats_table (some advRows) "advanced"
        | none => []
      some (dunion (dunion
        [("game_id", .vStr gameId), ("team", .vStr team),
         ("is_home", .vBool (team = "home"))] basicStats) advancedStats))

/-- `DataProcessor._parse_player_row` (lines 196-243).  After the
length and label guards the stats dict is assembled, but line 235 then
reads the name `soup`, which is not bound in this method's scope; the
resulting `NameError` is caught by the enclosing handler, so every row
yields `None`. -/
def parse_player_row (row : List String) (_gameId _team : String) : Option Dict :=
  if row.length < 10 then none
  else
    let player_name := row.headD ""
    if player_name = "" ∨ player_name = "Reserves" ∨ player_name = "Team Totals" then none
    else none

/-- `DataProcessor._parse_player_stats` (lines 171-194): player rows of
each side's basic table, header and totals rows excluded. -/
def parse_player_stats (doc : Doc) (gameId : String) : List Dict :=
  (["home", "away"].map (fun team =>
    match doc.basicTable team with
    | none => []
    | some basicRows =>
      ((basicRows.drop 1).dropLast).filterMap
        (fun row => parse_player_row row gameId team))).flatten

/-- `DataProcessor._parse_officials` (lines 343-365): up to the first
three officials links, 1-based positions. -/
def parse_officials (doc : Doc) (gameId : String) : List Dict :=
  match doc.officialLinks with
  | none => []
  | some links =>
    (links.take 3).enum.map (fun p =>
      [("game_id", .vStr gameId),
       ("official_name", .vStr p.2.1),
       ("official_url", .vStr p.2.2),
       ("position", .vInt (p.1 + 1 : Int))])

/-- The `game_data` dict as handed to `save_game_to_database`: the
scalar entries, plus — when `hasNested` — the `team_stats`,
`player_stats` and `officials` keys holding lists of dicts (the parser
always adds all three, src/data_processor.py lines 62-71). -/
structure GameData where
  info : Dict
  hasNested : Bool
  team_stats : List Dict
  player_stats : List Dict
  officials : List Dict
deriving DecidableEq, Repr

/-- `game_data.get('team_stats', [])`. -/
def GameData.getTeamStats (g : GameData) : List Dict :=
  if g.hasNested then g.team_stats else []

/-- `game_data.get('player_stats', [])`. -/
def GameData.getPlayerStats (g : GameData) : List Dict :=
  if g.hasNested then g.player_stats else []

/-- `game_data.get('officials', [])`. -/
def GameData.getOfficials (g : GameData) : List Dict :=
  if g.hasNested then g.officials else []

/-- `DataProcessor.parse_html_file` game-data assembly (lines 56-73):
basic info dict, then the `team_stats`, `player_stats` and `officials`
keys are added to the same dict. -/
def parse_game_data (doc : Doc) (gameId : String) : Option GameData :=
  match parse_basic_game_info gameId doc.lineScore with
  | none => none
  | some bi =>
    some { info := bi.toDict, hasNested := true,
           team_stats := parse_team_stats doc gameId,
           player_stats := parse_player_stats doc gameId,
           officials := parse_officials doc gameId }

/-- The attribute names of the `Game` declarative model
(src/models.py lines 10-29): columns plus relationship names.  The
declarative constructor raises `TypeError` on any keyword that is not
among them. -/
def gameAttrs : List String :=
  ["id", "game_id", "date", "season", "home_team", "away_team",
   "home_score", "away_score", "home_won",
   "home_stats", "away_stats", "officials"]

/-- The attribute names of `TeamGameStats` (src/models.py lines 31-105).
There is no `mp`, no `bpm`, and no `*_pct_max` / `mp_max` / `bpm_max`
attribute. -/
def teamGameStatsAttrs : List String :=
  ["id", "game_id", "team", "is_home",
   "fg", "fga", "fg_pct", "fg3", "fg3a", "fg3_pct", "ft", "fta", "ft_pct",
   "orb", "drb", "trb", "ast", "stl", "blk", "tov", "pf", "pts",
   "ts_pct", "efg_pct", "fg3a_rate", "fta_rate", "orb_pct", "drb_pct",
   "trb_pct", "ast_pct", "stl_pct", "blk_pct", "tov_pct", "usg_pct",
   "off_rtg", "def_rtg",
   "fg_max", "fga_max", "fg3_max", "fg3a_max", "ft_max", "fta_max",
   "orb_max", "drb_max", "trb_max", "ast_max", "stl_max", "blk_max",
   "tov_max", "pf_max", "pts_max",
   "home_game_id", "away_game_id", "home_game", "away_game"]

/-- The attribute names of `PlayerGameStats` (src/models.py lines 122-175). -/
def playerGameStatsAttrs : List String :=
  ["id", "game_id", "team", "player_name", "player_url",
   "mp", "fg", "fga", "fg_pct", "fg3", "fg3a", "fg3_pct", "ft", "fta",
   "ft_pct", "orb", "drb", "trb", "ast", "stl", "blk", "tov", "pf",
   "pts", "plus_minus",
   "ts_pct", "efg_pct", "fg3a_rate", "fta_rate", "orb_pct", "drb_pct",
   "trb_pct", "ast_pct", "stl_pct", "blk_pct", "tov_pct", "usg_pct",
   "off_rtg", "def_rtg", "bpm"]

/-- The attribute names of `GameOfficial` (src/models.py lines 107-120). -/
def gameOfficialAttrs : List String :=
  ["id", "game_id", "official_name", "official_url", "position", "game"]

/-- Whether `TeamGameStats(**d)` constructs: the declarative
constructor accepts the keywords iff each is an attribute. -/
def mkTeamGameStatsOk (d : Dict) : Bool :=
  d.all (fun kv => teamGameStatsAttrs.contains kv.1)

/-- Whether `PlayerGameStats(**d)` constructs. -/
def mkPlayerGameStatsOk (d : Dict) : Bool :=
  d.all (fun kv => playerGameStatsAttrs.contains kv.1)

/-- Whether `GameOfficial(**d)` constructs. -/
def mkGameOfficialOk (d : Dict) : Bool :=
  d.all (fun kv => gameOfficialAttrs.contains kv.1)

/-- Whether `Game(**game_data)` constructs: every scalar key must be a
`Game` attribute, and when the dict carries the parser's nested keys
the keyword `team_stats` is not an attribute and the constructor
raises `TypeError`. -/
def mkGameOk (g : GameData) : Bool :=
  !g.hasNested && g.info.all (fun kv => gameAttrs.contains kv.1)

/-- The committed contents of the four tables. -/
structure Store where
  games : List Dict
  teamStats : List Dict
  playerStats : List Dict
  officials : List Dict
deriving DecidableEq, Repr

/-- The empty database. -/
def Store.empty : Store := ⟨[], [], [], []⟩

/-- `DataProcessor.save_game_to_database` (src/data_processor.py lines
383-420; `save_game_to_database` in src/scraper.py lines 453-490 is
the same routine).  `failCommit n` tells whether the n-th `db.commit()`
of this call raises; every exception is caught, rolled back and
swallowed, and the function always returns `None`.  Session queries do
not see pending writes (`autoflush=False`), adds become durable only
at a successful commit, and `rollback` discards pending adds but not
the already-committed first transaction. -/
def save_game_to_database (failCommit : Nat → Bool) (db : Store)
    (g : GameData) : Store :=
  match dget g.info "game_id" with
  | none => db
  | some gid =>
    if db.games.any (fun r => dget r "game_id" == some gid) then db
    else if mkGameOk g then
      if failCommit 0 then db
      else
        let db1 : Store := { db with games := db.games ++ [g.info] }
        if (g.getTeamStats).all mkTeamGameStatsOk then
          if (g.getPlayerStats).all mkPlayerGameStatsOk then
            if (g.getOfficials).all mkGameOfficialOk then
              if failCommit 1 then db1
              else { db1 with
                     teamStats := db1.teamStats ++ g.getTeamStats,
                     playerStats := db1.playerStats ++ g.getPlayerStats,
                     officials := db1.officials ++ g.getOfficials }
            else db1
          else db1
        else db1
    else db

/-- `setattr(row, k, v)` for each payload key the record type has
(`if hasattr(existing, key)`), as in `update_game_data`. -/
def patchRow (attrs : List String) (payload : Dict) (row : Dict) : Dict :=
  payload.foldl (fun r kv => if attrs.contains kv.1 then dset r kv.1 kv.2 else r) row

/-- `.first()`-style update: patch the first row satisfying the
predicate, reporting whether one was found. -/
def patchFirst (pred : Dict → Bool) (f : Dict → Dict) :
    List Dict → List Dict × Bool
  | [] => ([], false)
  | r :: rs =>
    if pred r then (f r :: rs, true)
    else
      let (rs', b) := patchFirst pred f rs
      (r :: rs', b)

/-- Index of the first row satisfying the predicate, as
`query(...).filter(...).first()` selects it. -/
def findIdxD (p : Dict → Bool) : List Dict → Option Nat
  | [] => none
  | r :: rs => if p r then some 0 else (findIdxD p rs).map (fun j => j + 1)

/-- The row filter of the team-stat update query:
`game_id == game_data['game_id'] and team == team_stat['team']`. -/
def teamRowPred (gid tv : PyVal) (r : Dict) : Bool :=
  (dget r "game_id" == some gid) && (dget r "team" == some tv)

/-- The row filter of the player-stat update query. -/
def playerRowPred (gid pn tv : PyVal) (r : Dict) : Bool :=
  (dget r "game_id" == some gid) && (dget r "player_name" == some pn)
    && (dget r "team" == some tv)

/-- The team-stat loop of `update_game_data` (src/scrape_recent_data.py
lines 160-175): patch the first committed row matching (game id,
team), else stage a new `TeamGameStats(**team_stat)`; a `KeyError` on
`team_stat['team']` or a constructor `TypeError` aborts the update
(`none`).  Pending inserts are not visible to later queries
(`autoflush=False`). -/
def teamFold (gid : PyVal) : List Dict → List Dict → List Dict →
    Option (List Dict × List Dict)
  | [], rows, pend => some (rows, pend)
  | t :: ts, rows, pend =>
    match dget t "team" with
    | none => none
    | some tv =>
      let (rows2, found) := patchFirst (teamRowPred gid tv)
        (patchRow teamGameStatsAttrs t) rows
      if found then teamFold gid ts rows2 pend
      else if mkTeamGameStatsOk t then teamFold gid ts rows (pend ++ [t])
      else none

/-- The player-stat loop of `update_game_data` (lines 177-193). -/
def playerFold (gid : PyVal) : List Dict → List Dict → List Dict →
    Option (List Dict × List Dict)
  | [], rows, pend => some (rows, pend)
  | t :: ts, rows, pend =>
    match dget t "player_name", dget t "team" with
    | some pn, some tv =>
      let (rows2, found) := patchFirst (playerRowPred gid pn tv)
        (patchRow playerGameStatsAttrs t) rows
      if found then playerFold gid ts rows2 pend
      else if mkPlayerGameStatsOk t then playerFold gid ts rows (pend ++ [t])
      else none
    | _, _ => none

/-- `update_game_data` (src/scrape_recent_data.py lines 146-202):
locate the game by natural id (`if game:` — absent means do nothing),
overwrite its `home_score`, `away_score` and `home_won`, patch or
insert team and player sub-records, then one `db.commit()`
(`failCommit` tells whether it raises).  Any exception is caught and
everything — patches included — is rolled back, leaving the store
unchanged. -/
def update_game_data (failCommit : Bool) (db : Store) (g : GameData) : Store :=
  match dget g.info "game_id" with
  | none => db
  | some gid =>
    match findIdxD (fun r => dget r "game_id" == some gid) db.games with
    | none => db
    | some i =>
      match dget g.info "home_score", dget g.info "away_score",
            dget g.info "home_won" with
      | some hs, some aws, some hw =>
        let oldRow := db.games.getD i []
        let patched := dset (dset (dset oldRow "home_score" hs) "away_score" aws)
          "home_won" hw
        let games' := db.games.set i patched
        match teamFold gid (g.getTeamStats) db.teamStats [] with
        | none => db
        | some (trows, tpend) =>
          match playerFold gid (g.getPlayerStats) db.playerStats [] with
          | none => db
          | some (prows, ppend) =>
            if failCommit then db
            else { games := games', teamStats := trows ++ tpend,
                   playerStats := prows ++ ppend, officials := db.officials }
      | _, _, _ => db

/-- Outcome of one attempt of the transport at a given URL: the page
load / selector wait timed out (`PlaywrightTimeout`), some other
transport exception of the given class was raised, or content came
back. -/
inductive FetchOutcome where
  | timeout
  | err (cls : String)
  | success (html : String)
deriving DecidableEq, Repr

/-- What one call to `get_html_with_retry` did: the value returned to
the caller, the number of attempts made, and the backoff sleeps
performed between attempts (in seconds). -/
structure FetchTrace where
  result : Option String
  attempts : Nat
  sleeps : List Rat
deriving DecidableEq, Repr

/-- `settings.MAX_RETRIES` (src/config.py line 13). -/
def MAX_RETRIES : Nat := 3

/-- `settings.REQUEST_DELAY` (src/config.py line 12). -/
def REQUEST_DELAY : Rat := 1

/-- The retry loop of `get_html_with_retry` (src/scraper.py lines
49-76), from attempt index `a`: on success return the content; on
`PlaywrightTimeout` or any other exception, return `None` if this was
the last attempt, otherwise sleep `delay * (attempt + 1)` and try
again.  `fuel` only bounds the recursion; `maxRetries - a` steps
always suffice. -/
def retryGo (outcome : Nat → FetchOutcome) (delay : Rat)
    (maxRetries : Nat) : Nat → Nat → FetchTrace
  | _, 0 => ⟨none, 0, []⟩
  | a, fuel + 1 =>
    if a < maxRetries then
      match outcome a with
      | .success html => ⟨some html, 1, []⟩
      | _ =>
        if a = maxRetries - 1 then ⟨none, 1, []⟩
        else
          let t := retryGo outcome delay maxRetries (a + 1) fuel
          ⟨t.result, t.attempts + 1, delay * (a + 1) :: t.sleeps⟩
    else ⟨none, 0, []⟩

/-- `BasketballScraper.get_html_with_retry` (src/scraper.py lines
45-76; the copy in src/enhanced_scraper.py lines 47-78 is identical).
`net url` is the transport's behavior per attempt at that URL;
`max_retries = max_retries or settings.MAX_RETRIES` means both `None`
and `0` fall back to the configured default. -/
def get_html_with_retry (net : String → Nat → FetchOutcome) (url : String)
    (maxRetriesArg : Option Nat) : FetchTrace :=
  let m := match maxRetriesArg with
    | none => MAX_RETRIES
    | some 0 => MAX_RETRIES
    | some k => k
  retryGo (net url) REQUEST_DELAY m 0 m

/-- Decode one UTF-8 scalar value from the front of a byte list,
enforcing the same well-formedness CPython's strict decoder does
(continuation ranges, no overlong forms, no surrogates, max U+10FFFF). -/
def utf8DecodeOne : List Nat → Option (Nat × List Nat)
  | [] => none
  | b :: rest =>
    if b ≤ 0x7F then some (b, rest)
    else if 0xC2 ≤ b ∧ b ≤ 0xDF then
      match rest with
      | c :: r2 =>
        if 0x80 ≤ c ∧ c ≤ 0xBF then some ((b - 0xC0) * 0x40 + (c - 0x80), r2)
        else none
      | [] => none
    else if 0xE0 ≤ b ∧ b ≤ 0xEF then
      match rest with
      | c1 :: c2 :: r2 =>
        let lo1 := if b = 0xE0 then 0xA0 else 0x80
        let hi1 := if b = 0xED then 0x9F else 0xBF
        if (lo1 ≤ c1 ∧ c1 ≤ hi1) ∧ (0x80 ≤ c2 ∧ c2 ≤ 0xBF) then
          some ((b - 0xE0) * 0x1000 + (c1 - 0x80) * 0x40 + (c2 - 0x80), r2)
        else none
      | _ => none
    else if 0xF0 ≤ b ∧ b ≤ 0xF4 then
      match rest with
      | c1 :: c2 :: c3 :: r2 =>
        let lo1 := if b = 0xF0 then 0x90 else 0x80
        let hi1 := if b = 0xF4 then 0x8F else 0xBF
        if (lo1 ≤ c1 ∧ c1 ≤ hi1) ∧ (0x80 ≤ c2 ∧ c2 ≤ 0xBF)
            ∧ (0x80 ≤ c3 ∧ c3 ≤ 0xBF) then
          some ((b - 0xF0) * 0x40000 + (c1 - 0x80) * 0x1000
            + (c2 - 0x80) * 0x40 + (c3 - 0x80), r2)
        else none
      | _ => none
    else none

/-- Strict UTF-8 decoding of a whole byte list to code points
(`bytes.decode('utf-8')`); `none` is `UnicodeDecodeError`.  Fuel is
the byte count, which suffices since each step consumes at least one
byte. -/
def utf8DecodeStrictGo : Nat → List Nat → Option (List Nat)
  | _, [] => some []
  | 0, _ :: _ => none
  | fuel + 1, bs =>
    match utf8DecodeOne bs with
    | some (c, rest) => (utf8DecodeStrictGo fuel rest).map (fun cs => c :: cs)
    | none => none

/-- `bytes.decode('utf-8')`. -/
def utf8DecodeStrict (bs : List Nat) : Option (List Nat) :=
  utf8DecodeStrictGo bs.length bs

/-- `bytes.decode('utf-8', errors='ignore')`: drop offending bytes and
continue. -/
def utf8DecodeIgnoreGo : Nat → List Nat → List Nat
  | _, [] => []
  | 0, _ :: _ => []
  | fuel + 1, b :: bs =>
    match utf8DecodeOne (b :: bs) with
    | some (c, rest) => c :: utf8DecodeIgnoreGo fuel rest
    | none => utf8DecodeIgnoreGo fuel bs

/-- `bytes.decode('utf-8', errors='ignore')` as `open(...,
encoding='utf-8', errors='ignore')` reads a file. -/
def utf8DecodeIgnore (bs : List Nat) : List Nat :=
  utf8DecodeIgnoreGo bs.length bs

/-- `bytes.decode('ISO-8859-1')`: every byte is the code point of the
same value; Latin-1 decoding never fails. -/
def latin1Decode (bs : List Nat) : List Nat := bs

/-- The file read of `parse_html` (src/parse_data_copilot.py lines
15-25): try UTF-8, and on `UnicodeDecodeError` re-read the same bytes
as ISO-8859-1 (which cannot fail, so the inner handler's `None` branch
is unreachable for decoding). -/
def parse_html_read (bs : List Nat) : Option (List Nat) :=
  match utf8DecodeStrict bs with
  | some cps => some cps
  | none => some (latin1Decode bs)

/-- The file read of `DataProcessor.parse_html_file`
(src/data_processor.py line 46): `open(file_path, 'r',
encoding='utf-8', errors='ignore')` — undecodable bytes are silently
dropped and there is no fallback encoding. -/
def parse_html_file_read (bs : List Nat) : List Nat :=
  utf8DecodeIgnore bs

theorem dget_dset_self : ∀ (d : Dict) (k : String) (v : PyVal),
    dget (dset d k v) k = some v
  | [], k, v => by simp [dset, dget]
  | (k0, v0) :: tl, k, v => by
    by_cases h : k0 == k
    · simp [dset, h, dget]
    · simpa [dset, h, dget, List.find?] using dget_dset_self tl k v

theorem dget_dset_ne (d : Dict) (k k' : String) (v : PyVal) (h : k' ≠ k) :
    dget (dset d k v) k' = dget d k' := by
  induction d with
  | nil =>
    have hne : (k == k') = false := by
      simp only [beq_eq_false_iff_ne]
      exact fun hh => h hh.symm
    simp [dset, dget, List.find?, hne]
  | cons hd tl ih =>
    obtain ⟨k0, v0⟩ := hd
    by_cases h0 : k0 == k
    · have hk0 : k0 = k := by simpa using h0
      subst hk0
      have hne : (k0 == k') = false := by
        simp only [beq_eq_false_iff_ne]
        exact fun hh => h (hh.symm)
      simp [dset, dget, List.find?, h0, hne]
    · by_cases h1 : k0 == k'
      · simp [dset, h0, dget, List.find?, h1]
      · simp only [dset, h0, if_neg h0]
        simp [dget, List.find?, h1] at ih ⊢
        exact ih

theorem keyMem_dset (d : Dict) (k k' : String) (v : PyVal) :
    keyMem (dset d k v) k' = ((k == k') || keyMem d k') := by
  induction d with
  | nil => simp [dset, keyMem]
  | cons hd tl ih =>
    obtain ⟨k0, v0⟩ := hd
    by_cases h0 : k0 == k
    · have hk : k0 = k := by simpa using h0
      subst hk
      cases hkk : (k0 == k') <;> simp [dset, keyMem, hkk]
    · have ih' := ih
      simp only [keyMem] at ih'
      cases hkk : (k0 == k') <;>
        simp [dset, h0, keyMem, hkk, ih', Bool.or_left_comm]

theorem keyMem_dset_self (d : Dict) (k : String) (v : PyVal) :
    keyMem (dset d k v) k = true := by
  simp [keyMem_dset]

theorem keyMem_dset_mono (d : Dict) (k k' : String) (v : PyVal)
    (h : keyMem d k' = true) : keyMem (dset d k v) k' = true := by
  simp [keyMem_dset, h]

theorem keyMem_dunion_left (e : Dict) : ∀ (d : Dict) (k : String),
    keyMem d k = true → keyMem (dunion d e) k = true := by
  induction e with
  | nil => intro d k h; simpa [dunion] using h
  | cons kv e' ih =>
    intro d k h
    simpa [dunion] using ih (dset d kv.1 kv.2) k (keyMem_dset_mono d kv.1 k kv.2 h)

theorem keyMem_dunion_right (e : Dict) : ∀ (d : Dict) (k : String),
    keyMem e k = true → keyMem (dunion d e) k = true := by
  induction e with
  | nil => intro d k h; simp [keyMem] at h
  | cons kv e' ih =>
    intro d k h
    by_cases h1 : kv.1 == k
    · have hk : kv.1 = k := by simpa using h1
      subst hk
      simpa [dunion] using keyMem_dunion_left e' (dset d kv.1 kv.2) kv.1
        (keyMem_dset_self d kv.1 kv.2)
    · have h2 : keyMem e' k = true := by
        simpa [keyMem, h1] using h
      simpa [dunion] using ih (dset d kv.1 kv.2) k h2


theorem keyMem_totalsFold_mono (m : Nat → Option String) (ty : String) :
    ∀ (cs : List String) (i : Nat) (st : Dict) (k : String),
      keyMem st k = true → keyMem (totalsFold m ty cs i st) k = true
  | [], _, _, _, h => h
  | c :: cs, i, st, k, h => by
    cases hm : m i with
    | some name =>
      simp only [totalsFold, hm]
      exact keyMem_totalsFold_mono m ty cs (i + 1) _ k
        (keyMem_dset_mono st name k _ h)
    | none =>
      simp only [totalsFold, hm]
      exact keyMem_totalsFold_mono m ty cs (i + 1) st k h

theorem keyMem_totalsFold_set (m : Nat → Option String) (ty : String)
    (c : String) (cs : List String) (i : Nat) (st : Dict) (name : String)
    (hm : m i = some name) :
    keyMem (totalsFold m ty (c :: cs) i st) name = true := by
  simp only [totalsFold, hm]
  exact keyMem_totalsFold_mono m ty cs (i + 1) _ name
    (keyMem_dset_self st name _)

theorem keyMem_maxRowFold_mono (m : Nat → Option String) :
    ∀ (cs : List String) (j : Nat) (st : Dict) (k : String),
      keyMem st k = true → keyMem (maxRowFold m cs j st) k = true
  | [], _, _, _, h => h
  | c :: cs, j, st, k, h => by
    cases hm : m j with
    | some name =>
      simp only [maxRowFold, hm]
      by_cases hc : strContains name "pct"
      · rw [if_pos hc]
        exact keyMem_maxRowFold_mono m cs (j + 1) _ k
          (keyMem_dset_mono st (name ++ "_max") k _ h)
      · rw [if_neg hc]
        exact keyMem_maxRowFold_mono m cs (j + 1) _ k
          (keyMem_dset_mono st (name ++ "_max") k _ h)
    | none =>
      simp only [maxRowFold, hm]
      exact keyMem_maxRowFold_mono m cs (j + 1) st k h

theorem keyMem_maxRowFold_set (m : Nat → Option String)
    (c : String) (cs : List String) (j : Nat) (st : Dict) (name : String)
    (hm : m j = some name) :
    keyMem (maxRowFold m (c :: cs) j st) (name ++ "_max") = true := by
  simp only [maxRowFold, hm]
  by_cases hc : strContains name "pct"
  · rw [if_pos hc]
    exact keyMem_maxRowFold_mono m cs (j + 1) _ _
      (keyMem_dset_self st (name ++ "_max") _)
  · rw [if_neg hc]
    exact keyMem_maxRowFold_mono m cs (j + 1) _ _
      (keyMem_dset_self st (name ++ "_max") _)

theorem maxFold_cons (m : Nat → Option String) (row : List String)
    (rows : List (List String)) (st : Dict) :
    maxFold m (row :: rows) st = maxFold m rows (maxRowFold m (row.drop 1) 1 st) := by
  simp [maxFold]

theorem keyMem_maxFold_mono (m : Nat → Option String) :
    ∀ (rows : List (List String)) (st : Dict) (k : String),
      keyMem st k = true → keyMem (maxFold m rows st) k = true
  | [], _, _, h => h
  | row :: rows, st, k, h => by
    rw [maxFold_cons]
    exact keyMem_maxFold_mono m rows _ k
      (keyMem_maxRowFold_mono m (row.drop 1) 1 st k h)

theorem keyMem_maxFold_set (m : Nat → Option String) :
    ∀ (rows : List (List String)) (st : Dict) (r : List String) (name : String),
      r ∈ rows → 2 ≤ r.length → m 1 = some name →
      keyMem (maxFold m rows st) (name ++ "_max") = true := by
  intro rows
  induction rows with
  | nil => intro st r name hr; simp at hr
  | cons row rows ih =>
    intro st r name hr hlen hm
    rcases List.mem_cons.mp hr with hr | hr
    · subst hr
      match r, hlen with
      | a :: b :: t, _ =>
        rw [maxFold_cons]
        have hset : keyMem (maxRowFold m ((a :: b :: t).drop 1) 1 st)
            (name ++ "_max") = true := by
          simpa using keyMem_maxRowFold_set m b t 1 st name hm
        exact keyMem_maxFold_mono m rows _ _ hset
    · rw [maxFold_cons]
      exact ih _ r name hr hlen hm

theorem mkTeamGameStatsOk_false_of_key (d : Dict) (k : String)
    (hk : keyMem d k = true) (hattr : teamGameStatsAttrs.contains k = false) :
    mkTeamGameStatsOk d = false := by
  cases hok : mkTeamGameStatsOk d with
  | false => rfl
  | true =>
    exfalso
    rw [keyMem, List.any_eq_true] at hk
    obtain ⟨p, hp, hpk⟩ := hk
    have hk1 : p.1 = k := by simpa using hpk
    unfold mkTeamGameStatsOk at hok
    have h2 := List.all_eq_true.mp hok p hp
    rw [hk1, hattr] at h2
    exact Bool.false_ne_true h2

theorem strptimeYmd_year_pos (s : String) (y m d : Nat)
    (h : strptimeYmd s = some (y, m, d)) : 1 ≤ y := by
  unfold strptimeYmd at h
  split at h
  · split at h
    · unfold ymdCheck at h
      split at h
      · rename_i hcond
        obtain ⟨hy, -⟩ := hcond
        obtain ⟨hA, -⟩ := Prod.mk.inj (Option.some.inj h)
        exact hA ▸ hy
      · exact absurd h (by simp)
    · exact absurd h (by simp)
  · exact absurd h (by simp)

theorem parse_basic_game_info_spec (gid : String)
    (ls : Option (List (List String))) (info : BasicGameInfo)
    (h : parse_basic_game_info gid ls = some info) :
    ∃ y m d allRows t1 s1 t2 s2,
      strptimeYmd ((gid.data.take 8).asString) = some (y, m, d) ∧
      ls = some allRows ∧
      collectTeamScores (allRows.drop 1) = some [(t1, s1), (t2, s2)] ∧
      info = { game_id := gid, year := y, month := m, day := d,
               season := if m < 7 then y - 1 else y,
               home_team := t2, away_team := t1,
               home_score := s2, away_score := s1,
               home_won := decide (s2 > s1) } := by
  simp only [parse_basic_game_info] at h
  split at h
  · exact absurd h (by simp)
  · rename_i ymd y m d hs
    split at h
    · exact absurd h (by simp)
    · rename_i allRows
      split at h
      · exact absurd h (by simp)
      · split at h
        · exact absurd h (by simp)
        · rename_i pairs hc
          split at h
          · rename_i t1 s1 t2 s2
            refine ⟨y, m, d, allRows, t1, s1, t2, s2, hs, rfl, hc, ?_⟩
            injection h with h1
            exact h1.symm
          · exact absurd h (by simp)

/-- C5: for every game date the derived season is the calendar year of
the date, minus one exactly when the month is earlier than July
(`_parse_basic_game_info`, src/data_processor.py lines 85-92). -/
theorem c5_season_from_date :
    ∀ (gid : String) (ls : Option (List (List String))) (info : BasicGameInfo),
      parse_basic_game_info gid ls = some info →
      info.season = info.year - (if info.month < 7 then 1 else 0) ∧
      1 ≤ info.year := by
  intro gid ls info h
  obtain ⟨y, m, d, allRows, t1, s1, t2, s2, hs, -, -, hinfo⟩ :=
    parse_basic_game_info_spec gid ls info h
  subst hinfo
  constructor
  · by_cases hm : m < 7 <;> simp [hm]
  · exact strptimeYmd_year_pos _ y m d hs

/-- The line score used by the concrete season-derivation checks. -/
def c5_ls : Option (List (List String)) :=
  some [["hdr"], ["MIA", "99"], ["BOS", "101"]]

/-- The record parsed from a 2023-06-15 game id. -/
def c5_info_june : BasicGameInfo :=
  { game_id := "202306150DEN", year := 2023, month := 6, day := 15,
    season := 2022, home_team := "BOS", away_team := "MIA",
    home_score := 101, away_score := 99, home_won := true }

/-- The record parsed from a 2023-10-15 game id. -/
def c5_info_oct : BasicGameInfo :=
  { game_id := "202310150DEN", year := 2023, month := 10, day := 15,
    season := 2023, home_team := "BOS", away_team := "MIA",
    home_score := 101, away_score := 99, home_won := true }

/-- Witness for C5: 2023-06-15 derives season 2022 and 2023-10-15
derives season 2023, and both satisfy the season formula. -/
theorem c5_season_witness :
    parse_basic_game_info "202306150DEN" c5_ls = some c5_info_june ∧
    c5_info_june.season = 2022 ∧
    c5_info_june.season
      = c5_info_june.year - (if c5_info_june.month < 7 then 1 else 0) ∧
    parse_basic_game_info "202310150DEN" c5_ls = some c5_info_oct ∧
    c5_info_oct.season = 2023 ∧
    c5_info_oct.season
      = c5_info_oct.year - (if c5_info_oct.month < 7 then 1 else 0) :=
  ⟨rfl, rfl, (c5_season_from_date "202306150DEN" c5_ls c5_info_june rfl).1,
   rfl, rfl, (c5_season_from_date "202310150DEN" c5_ls c5_info_oct rfl).1⟩

/-- C4 (amended): for every input whose line-score table yields exactly
two (team, score) pairs, the first listed team becomes the away side,
the second the home side, and `home_won = (home_score > away_score)`;
ties are not rejected (see the counterexample), contrary to the claim's
final part. -/
theorem c4_positional_assembly :
    ∀ (gid : String) (rows : List (List String)) (info : BasicGameInfo),
      parse_basic_game_info gid (some rows) = some info →
      ∃ t1 s1 t2 s2,
        collectTeamScores (rows.drop 1) = some [(t1, s1), (t2, s2)] ∧
        info.away_team = t1 ∧ info.home_team = t2 ∧
        info.away_score = s1 ∧ info.home_score = s2 ∧
        info.home_won = decide (info.home_score > info.away_score) := by
  intro gid rows info h
  obtain ⟨y, m, d, allRows, t1, s1, t2, s2, -, hls, hc, hinfo⟩ :=
    parse_basic_game_info_spec gid (some rows) info h
  obtain rfl : rows = allRows := Option.some.inj hls
  subst hinfo
  exact ⟨t1, s1, t2, s2, hc, rfl, rfl, rfl, rfl, by simp⟩

/-- The record the assembler produces from a tied 100-100 line score. -/
def c4_tie_info : BasicGameInfo :=
  { game_id := "202310240BOS", year := 2023, month := 10, day := 24,
    season := 2023, home_team := "BOS", away_team := "MIA",
    home_score := 100, away_score := 100, home_won := false }

/-- Counterexample for C4: a tied two-team line score is not rejected —
the assembler returns a record with `home_score = away_score` (and
`home_won = false`), contradicting "never produces a record in which
home_score equals away_score". -/
theorem c4_tie_not_rejected :
    parse_basic_game_info "202310240BOS"
      (some [["hdr"], ["MIA", "100"], ["BOS", "100"]]) = some c4_tie_info ∧
    c4_tie_info.home_score = c4_tie_info.away_score :=
  ⟨rfl, rfl⟩

/-- The record parsed in the C4 witness. -/
def c4_info : BasicGameInfo :=
  { game_id := "202310240BOS", year := 2023, month := 10, day := 24,
    season := 2023, home_team := "BOS", away_team := "MIA",
    home_score := 101, away_score := 99, home_won := true }

/-- Witness for C4: the amended theorem applied to a concrete 99-101
line score. -/
theorem c4_positional_witness :
    ∃ t1 s1 t2 s2,
      collectTeamScores ([["hdr"], ["MIA", "99"], ["BOS", "101"]].drop 1)
        = some [(t1, s1), (t2, s2)] ∧
      c4_info.away_team = t1 ∧ c4_info.home_team = t2 ∧
      c4_info.away_score = s1 ∧ c4_info.home_score = s2 ∧
      c4_info.home_won = decide (c4_info.home_score > c4_info.away_score) :=
  c4_positional_assembly "202310240BOS"
    [["hdr"], ["MIA", "99"], ["BOS", "101"]] c4_info rfl

/-- C6: the numeric coercions `_safe_int` / `_safe_float` are total:
a missing cell (`None`), empty text, or unparsable text (such as a
placeholder dash) coerces to `0` / `0.0`, and parsable text yields the
parsed value (src/data_processor.py lines 367-381). -/
theorem c6_safe_coercion :
    ∀ t : String,
      safe_int .null = 0 ∧ safe_float .null = 0 ∧
      safe_int (.tag "") = 0 ∧ safe_float (.tag "") = 0 ∧
      (pyInt t = none → safe_int (.tag t) = 0) ∧
      (∀ n, pyInt t = some n → safe_int (.tag t) = n) ∧
      (pyFloat t = none → safe_float (.tag t) = 0) ∧
      (∀ q, pyFloat t = some q → safe_float (.tag t) = q) := by
  intro t
  refine ⟨rfl, rfl, rfl, rfl, ?_, ?_, ?_, ?_⟩
  · intro h
    by_cases ht : t = "" <;> simp [safe_int, getText, ht, h]
  · intro n h
    have ht : t ≠ "" := by
      intro he
      subst he
      exact Option.noConfusion (h.symm.trans (show pyInt "" = none from rfl)).symm
    simp [safe_int, getText, ht, h]
  · intro h
    by_cases ht : t = "" <;> simp [safe_float, getText, ht, h]
  · intro q h
    have ht : t ≠ "" := by
      intro he
      subst he
      exact Option.noConfusion (h.symm.trans (show pyFloat "" = none from rfl)).symm
    simp [safe_float, getText, ht, h]

/-- Witness for C6: a dash coerces to 0 / 0.0, "25" parses to 25, and
"0.4" parses to 2/5. -/
theorem c6_safe_coercion_witness :
    safe_int (.tag "-") = 0 ∧ safe_float (.tag "-") = 0 ∧
    safe_int (.tag "25") = 25 ∧ safe_float (.tag "0.4") = 2 / 5 ∧
    safe_int .null = 0 := by
  have h04 : pyFloat "0.4"
      = some (((0 : Nat) : Rat) + ((4 : Nat) : Rat) / (10 : Rat) ^ (1 : Nat)) := rfl
  refine ⟨(c6_safe_coercion "-").2.2.2.2.1 rfl,
    (c6_safe_coercion "-").2.2.2.2.2.2.1 rfl,
    (c6_safe_coercion "25").2.2.2.2.2.1 25 rfl, ?_,
    (c6_safe_coercion "").1⟩
  rw [(c6_safe_coercion "0.4").2.2.2.2.2.2.2 _ h04]
  push_cast
  norm_num

/-- C10 (amended): the `parse_html` reader applies the mandatory
fallback — UTF-8 first, and on a decoding failure a Latin-1-compatible
re-read, so it never loses a document; the `parse_html_file` reader
instead decodes UTF-8 with `errors='ignore'` and has no fallback (see
the counterexample), contrary to "mandatory for every read". -/
theorem c10_parse_html_fallback :
    ∀ bs : List Nat,
      (∀ cps, utf8DecodeStrict bs = some cps → parse_html_read bs = some cps) ∧
      (utf8DecodeStrict bs = none → parse_html_read bs = some (latin1Decode bs)) ∧
      (parse_html_read bs).isSome = true := by
  intro bs
  refine ⟨?_, ?_, ?_⟩
  · intro cps h; simp [parse_html_read, h]
  · intro h; simp [parse_html_read, h]
  · cases h : utf8DecodeStrict bs <;> simp [parse_html_read, h]

/-- Counterexample for C10: on the bytes `48 E9 69` (a Latin-1 "é"
between ASCII letters) the `parse_html_file` reader silently drops the
undecodable byte instead of falling back to Latin-1, so the fallback is
not applied on every read of the raw document store and the document is
silently altered. -/
theorem c10_ignore_read_drops_bytes :
    parse_html_file_read [72, 233, 105] = [72, 105] ∧
    parse_html_read [72, 233, 105] = some [72, 233, 105] ∧
    parse_html_file_read [72, 233, 105] ≠ latin1Decode [72, 233, 105] := by
  refine ⟨by decide, by decide, by decide⟩

/-- Witness for C10: the fallback theorem applied to the undecodable
bytes `48 E9 69` (Latin-1 branch) and to plain ASCII `68 69` (UTF-8
branch). -/
theorem c10_parse_html_fallback_witness :
    parse_html_read [72, 233, 105] = some (latin1Decode [72, 233, 105]) ∧
    parse_html_read [104, 105] = some [104, 105] :=
  ⟨(c10_parse_html_fallback [72, 233, 105]).2.1 (by decide),
   (c10_parse_html_fallback [104, 105]).1 [104, 105] (by decide)⟩

/-- One player row of the C7 check: a row label followed by eighteen
zero cells and the `pts` cell at offset 19. -/
def c7_player_row (nm pts : String) : List String :=
  [nm] ++ List.replicate 18 "0" ++ [pts]

/-- A basic table whose player rows carry pts 10, 25 and 8. -/
def c7_rows : List (List String) :=
  [["Starters"] ++ List.replicate 19 "MP",
   c7_player_row "Player One" "10", c7_player_row "Player Two" "25",
   c7_player_row "Player Three" "8", c7_player_row "Team Totals" "43"]

/-- C7 (code bug): over player rows with pts 10, 25, 8 the mapper
yields `pts_max = 0`, not 25 as the claim (and the code's evident
intent) states: `_parse_stats_table` hands the extracted text string to
`_safe_int` / `_safe_float`, whose `cell.get_text` call raises
`AttributeError` on a string, so every coerced value — maxima included
— collapses to the 0 default. -/
theorem c7_pts_max_collapses_to_zero :
    dget (parse_stats_table (some c7_rows) "basic") "pts_max"
      = some (.vInt 0) ∧
    dget (parse_stats_table (some c7_rows) "basic") "pts_max"
      ≠ some (.vInt 25) ∧
    ((c7_rows.drop 1).dropLast).map (fun r => r.getLastD "")
      = ["10", "25", "8"] ∧
    safe_int (.txt "25") = 0 ∧ safe_int (.tag "25") = 25 := by
  exact ⟨by decide, by decide, by decide, by decide, by decide⟩

/-- A game already present under its natural id is skipped: the store
is returned unchanged whatever the commit oracle says. -/
theorem save_eq_of_present (failCommit : Nat → Bool) (db : Store)
    (g : GameData) (gid : PyVal) (hgid : dget g.info "game_id" = some gid)
    (hpres : db.games.any (fun r => dget r "game_id" == some gid) = true) :
    save_game_to_database failCommit db g = db := by
  simp [save_game_to_database, hgid, hpres]

/-- C1 (amended): ingest is not one atomic unit.  When the game is not
already present: if the `Game` construction or the first commit fails,
nothing is persisted (a future re-run retries); but once the first
commit succeeds the GameRecord is durable regardless of any later
failure — the second transaction's failure does not roll it back, and
a future re-run then skips the game instead of retrying it.  In every
case the function returns normally (the Python function always returns
`None`), so no failure is reported to the caller. -/
theorem c1_two_phase_commit_not_atomic :
    ∀ (failCommit : Nat → Bool) (db : Store) (g : GameData) (gid : PyVal),
      dget g.info "game_id" = some gid →
      db.games.any (fun r => dget r "game_id" == some gid) = false →
      (mkGameOk g = false → save_game_to_database failCommit db g = db) ∧
      (failCommit 0 = true → save_game_to_database failCommit db g = db) ∧
      (mkGameOk g = true → failCommit 0 = false →
        (save_game_to_database failCommit db g).games = db.games ++ [g.info] ∧
        ∀ failCommit2,
          save_game_to_database failCommit2
              (save_game_to_database failCommit db g) g
            = save_game_to_database failCommit db g) := by
  intro fc db g gid hgid hpres
  refine ⟨?_, ?_, ?_⟩
  · intro hok
    simp [save_game_to_database, hgid, hpres, hok]
  · intro hfc
    simp [save_game_to_database, hgid, hpres, hfc]
  · intro hok hfc
    have hgames : (save_game_to_database fc db g).games = db.games ++ [g.info] := by
      simp only [save_game_to_database, hgid, hpres, hok, hfc, Bool.false_eq_true,
        if_false, if_true]
      split
      · split
        · split
          · split <;> rfl
          · rfl
        · rfl
      · rfl
    refine ⟨hgames, ?_⟩
    intro fc2
    apply save_eq_of_present fc2 _ g gid hgid
    rw [hgames]
    simp [List.any_append, hgid]

/-- A bare game dict with only the scalar `Game` columns, as `ingest`
would need to receive for the `Game` construction to succeed. -/
def c1_gClean : GameData :=
  { info := [("game_id", .vStr "202310240BOS"), ("date", .vDate 2023 10 24),
     ("season", .vInt 2023), ("home_team", .vStr "BOS"),
     ("away_team", .vStr "MIA"), ("home_score", .vInt 119),
     ("away_score", .vInt 111), ("home_won", .vBool true)],
    hasNested := false, team_stats := [], player_stats := [], officials := [] }

/-- The store left behind when the second commit of the save fails. -/
def c1_failedStore : Store :=
  save_game_to_database (fun n => n == 1) Store.empty c1_gClean

/-- Counterexample for C1: with the second commit failing, the
GameRecord stays persisted (the unit is not rolled back) and a future
re-run skips the game instead of retrying it. -/
theorem c1_counterexample_game_survives_failure :
    (fun n : Nat => n == 1) 1 = true ∧
    c1_failedStore.games = [c1_gClean.info] ∧
    save_game_to_database (fun _ => false) c1_failedStore c1_gClean
      = c1_failedStore := by
  refine ⟨rfl, by decide, by decide⟩

/-- Witness for C1: the amended theorem applied to the bare game and
the empty store, for a failing second commit, a failing first commit,
and a re-run after the failure. -/
theorem c1_two_phase_witness :
    (save_game_to_database (fun n => n == 1) Store.empty c1_gClean).games
      = Store.empty.games ++ [c1_gClean.info] ∧
    save_game_to_database (fun _ => false)
        (save_game_to_database (fun n => n == 1) Store.empty c1_gClean)
        c1_gClean
      = save_game_to_database (fun n => n == 1) Store.empty c1_gClean ∧
    save_game_to_database (fun _ => true) Store.empty c1_gClean
      = Store.empty := by
  have h1 := c1_two_phase_commit_not_atomic (fun n => n == 1) Store.empty
    c1_gClean (.vStr "202310240BOS") rfl rfl
  have h2 := c1_two_phase_commit_not_atomic (fun _ => true) Store.empty
    c1_gClean (.vStr "202310240BOS") rfl rfl
  exact ⟨(h1.2.2 rfl rfl).1, (h1.2.2 rfl rfl).2 (fun _ => false),
    h2.2.1 rfl⟩

/-- A concrete parsed box score: line score, home basic table, one
official. -/
def c2_doc : Doc :=
  { lineScore := some [["hdr"], ["MIA", "99"], ["BOS", "101"]],
    basicTable := fun t => if t = "home"
      then some [["Starters", "MP"], ["Player One", "30"],
                 ["Team Totals", "240"]]
      else none,
    advTable := fun _ => none,
    officialLinks := some [("Referee One", "u1")] }

/-- The parsed game dict the pipeline hands to
`save_game_to_database` for that document. -/
def c2_pg : GameData :=
  (parse_game_data c2_doc "202310240BOS").getD ⟨[], false, [], [], []⟩

/-- C2 (code bug): ingest of a parsed game persists zero GameRecords,
not one.  Every parsed `game_data` dict carries the `team_stats`,
`player_stats` and `officials` keys, and `Game(**game_data)` rejects
the unknown keyword `team_stats` with a `TypeError`, which the handler
swallows after rolling back — so running ingest twice on the same
parsed game leaves the store empty (the existence-check-then-skip
logic itself is never reached for a second run, and the code's own
"Saved game" log line is unreachable). -/
theorem c2_parsed_game_persists_zero :
    parse_game_data c2_doc "202310240BOS" = some c2_pg ∧
    c2_pg.hasNested = true ∧
    mkGameOk c2_pg = false ∧
    save_game_to_database (fun _ => false) Store.empty c2_pg = Store.empty ∧
    save_game_to_database (fun _ => false)
        (save_game_to_database (fun _ => false) Store.empty c2_pg) c2_pg
      = Store.empty ∧
    (save_game_to_database (fun _ => false)
        (save_game_to_database (fun _ => false) Store.empty c2_pg)
        c2_pg).games.length = 0 := by
  refine ⟨by decide, by decide, by decide, by decide, by decide, by decide⟩

/-- C3 (amended): for every basic-schema table whose totals row has a
cell at offset 1, the basic mapping contains the key `mp` (and
`mp_max` for every player row with a cell at offset 1);
`TeamGameStats` has no attribute of either name, so the team-stat
record construction fails for every such game.  Moreover ingest then
persists nothing at all — not even the GameRecord — because every
parsed game dict carries the nested keys and `Game(**game_data)`
already fails on `team_stats`, so the whole save is a no-op on the
store. -/
theorem c3_mp_fields_break_ingest :
    ∀ (rows : List (List String)) (r0 : List String) (rtl : List (List String)),
      rows = r0 :: rtl → 2 ≤ (rows.getLastD []).length →
      keyMem (parse_stats_table (some rows) "basic") "mp" = true ∧
      (∀ prow, prow ∈ (rows.drop 1).dropLast → 2 ≤ prow.length →
        keyMem (parse_stats_table (some rows) "basic") "mp_max" = true) ∧
      teamGameStatsAttrs.contains "mp" = false ∧
      teamGameStatsAttrs.contains "mp_max" = false ∧
      (∀ (gid side : String) (adv : Dict),
        mkTeamGameStatsOk (dunion (dunion
          [("game_id", .vStr gid), ("team", .vStr side),
           ("is_home", .vBool (side = "home"))]
          (parse_stats_table (some rows) "basic")) adv) = false) ∧
      (∀ (failCommit : Nat → Bool) (db : Store) (g : GameData),
        g.hasNested = true → save_game_to_database failCommit db g = db) := by
  intro rows r0 rtl hrows hlen
  subst hrows
  have hpst : parse_stats_table (some (r0 :: rtl)) "basic"
      = maxFold basicStatMapping (((r0 :: rtl).drop 1).dropLast)
          (totalsFold basicStatMapping "basic"
            (((r0 :: rtl).getLastD []).drop 1) 1 []) := by
    simp [parse_stats_table]
  obtain ⟨lbl, c1, ctl, htot⟩ :
      ∃ lbl c1 ctl, (r0 :: rtl).getLastD [] = lbl :: c1 :: ctl := by
    cases hgl : (r0 :: rtl).getLastD [] with
    | nil => rw [hgl] at hlen; simp at hlen
    | cons a tl1 =>
      cases tl1 with
      | nil => rw [hgl] at hlen; simp at hlen
      | cons b t => exact ⟨a, b, t, rfl⟩
  have hmp : keyMem (parse_stats_table (some (r0 :: rtl)) "basic") "mp" = true := by
    rw [hpst, htot]
    simp only [List.drop_succ_cons, List.drop_zero]
    exact keyMem_maxFold_mono _ _ _ _
      (keyMem_totalsFold_set basicStatMapping "basic" c1 ctl 1 [] "mp" rfl)
  refine ⟨hmp, ?_, by decide, by decide, ?_, ?_⟩
  · intro prow hmem hplen
    rw [hpst]
    exact keyMem_maxFold_set basicStatMapping _ _ prow "mp" hmem hplen rfl
  · intro gid side adv
    apply mkTeamGameStatsOk_false_of_key _ "mp"
    · exact keyMem_dunion_left adv _ "mp"
        (keyMem_dunion_right _ _ "mp" hmp)
    · decide
  · intro failCommit db g hg
    have hok : mkGameOk g = false := by simp [mkGameOk, hg]
    cases hgid : dget g.info "game_id" with
    | none => simp [save_game_to_database, hgid]
    | some gid => simp [save_game_to_database, hgid, hok]

/-- A concrete parsed box score for the C3 counterexample. -/
def c3_doc : Doc :=
  { lineScore := some [["hdr"], ["DEN", "99"], ["LAL", "101"]],
    basicTable := fun t => if t = "home"
      then some [["Starters", "MP"], ["Player One", "30"],
                 ["Team Totals", "240"]]
      else none,
    advTable := fun _ => none,
    officialLinks := none }

/-- The parsed game for that document. -/
def c3_pg : GameData :=
  (parse_game_data c3_doc "202311010LAL").getD ⟨[], false, [], [], []⟩

/-- Counterexample for C3: the basic mapping does produce `mp` and
`mp_max` and the team-stat construction does fail, but ingest persists
nothing at all — the stored game list stays empty, contradicting the
claim's "ingest then persists the GameRecord while persisting zero
TeamStatRecords". -/
theorem c3_counterexample_nothing_persisted :
    (parse_game_data c3_doc "202311010LAL").isSome = true ∧
    keyMem (c3_pg.team_stats.headD []) "mp" = true ∧
    keyMem (c3_pg.team_stats.headD []) "mp_max" = true ∧
    mkTeamGameStatsOk (c3_pg.team_stats.headD []) = false ∧
    save_game_to_database (fun _ => false) Store.empty c3_pg = Store.empty ∧
    (save_game_to_database (fun _ => false) Store.empty c3_pg).games = [] := by
  refine ⟨by decide, by decide, by decide, by decide, by decide, by decide⟩

/-- The basic table rows used in the C3 witness. -/
def c3_rows : List (List String) :=
  [["Starters", "MP"], ["Player One", "30"], ["Team Totals", "240"]]

/-- A parsed-shaped game dict (nested keys present) for the C3 witness. -/
def c3w_g : GameData :=
  { info := [("game_id", .vStr "202311010LAL")], hasNested := true,
    team_stats := [], player_stats := [], officials := [] }

/-- Witness for C3: the amended theorem applied to a concrete basic
table with a totals row and one player row, and to a nested-keyed game
dict against the empty store. -/
theorem c3_mp_fields_witness :
    keyMem (parse_stats_table (some c3_rows) "basic") "mp" = true ∧
    keyMem (parse_stats_table (some c3_rows) "basic") "mp_max" = true ∧
    mkTeamGameStatsOk (dunion (dunion
      [("game_id", .vStr "202311010LAL"), ("team", .vStr "home"),
       ("is_home", .vBool (("home" : String) = "home"))]
      (parse_stats_table (some c3_rows) "basic")) []) = false ∧
    save_game_to_database (fun _ => false) Store.empty c3w_g = Store.empty := by
  have h := c3_mp_fields_break_ingest c3_rows ["Starters", "MP"]
    [["Player One", "30"], ["Team Totals", "240"]] rfl (by decide)
  exact ⟨h.1, h.2.1 ["Player One", "30"] (by decide) (by decide),
    h.2.2.2.2.1 "202311010LAL" "home" [],
    h.2.2.2.2.2 (fun _ => false) Store.empty c3w_g rfl⟩

theorem retryGo_attempts_le (o : Nat → FetchOutcome) (d : Rat) (m : Nat) :
    ∀ (fuel a : Nat), (retryGo o d m a fuel).attempts ≤ m - a := by
  intro fuel
  induction fuel with
  | zero => intro a; simp [retryGo]
  | succ fuel ih =>
    intro a
    by_cases ha : a < m
    · cases ho : o a with
      | success html => simp [retryGo, ha, ho]; omega
      | timeout =>
        by_cases hlast : a = m - 1
        · simp only [retryGo, if_pos ha, ho, if_pos hlast]
          omega
        · have := ih (a + 1)
          simp only [retryGo, if_pos ha, ho, if_neg hlast]
          omega
      | err cls =>
        by_cases hlast : a = m - 1
        · simp only [retryGo, if_pos ha, ho, if_pos hlast]
          omega
        · have := ih (a + 1)
          simp only [retryGo, if_pos ha, ho, if_neg hlast]
          omega
    · simp [retryGo, ha]

theorem retryGo_allfail (o : Nat → FetchOutcome) (d : Rat) (m : Nat) :
    ∀ (fuel a : Nat), a < m → m - a ≤ fuel →
      (∀ k, k < m → ∀ h, o k ≠ .success h) →
      retryGo o d m a fuel
        = ⟨none, m - a, (List.range (m - 1 - a)).map
            (fun i => d * ((a + i + 1 : Nat) : Rat))⟩ := by
  intro fuel
  induction fuel with
  | zero => intro a ha hfuel _; omega
  | succ fuel ih =>
    intro a ha hfuel hfail
    by_cases hlast : a = m - 1
    · have h1 : m - a = 1 := by omega
      have h2 : m - 1 - a = 0 := by omega
      cases ho : o a with
      | success html => exact absurd ho (hfail a ha html)
      | timeout =>
        simp only [retryGo, if_pos ha, ho, if_pos hlast, h1, h2,
          List.range_zero, List.map_nil]
      | err cls =>
        simp only [retryGo, if_pos ha, ho, if_pos hlast, h1, h2,
          List.range_zero, List.map_nil]
    · have ha1 : a + 1 < m := by omega
      have hfuel1 : m - (a + 1) ≤ fuel := by omega
      have ht := ih (a + 1) ha1 hfuel1 hfail
      have hatt : (m - (a + 1)) + 1 = m - a := by omega
      have hsleeps : d * ((a + 1 : Nat) : Rat)
            :: (List.range (m - 1 - (a + 1))).map
                (fun i => d * ((a + 1 + i + 1 : Nat) : Rat))
          = (List.range (m - 1 - a)).map
              (fun i => d * ((a + i + 1 : Nat) : Rat)) := by
        have hr : m - 1 - a = (m - 1 - (a + 1)) + 1 := by omega
        rw [hr, List.range_succ_eq_map, List.map_cons, List.map_map]
        congr 1
        apply List.map_congr_left
        intro i _
        have hn : a + 1 + i + 1 = a + (i + 1) + 1 := by omega
        simp [Function.comp, hn]
      cases ho : o a with
      | success html => exact absurd ho (hfail a ha html)
      | timeout =>
        simp only [retryGo, ho, if_pos ha, if_neg hlast, ht]
        rw [← hatt, ← hsleeps]
        norm_cast
      | err cls =>
        simp only [retryGo, ho, if_pos ha, if_neg hlast, ht]
        rw [← hatt, ← hsleeps]
        norm_cast

/-- C8 (amended): the fetcher makes at most `max_retries` attempts
(default 3), and between consecutive attempts sleeps the configured
delay times the 1-based index of the attempt that just failed (linear
backoff), retrying on timeout or on any other transport error alike;
when every attempt fails it returns the bare `None` — not a failure
value carrying the URL and error class, which are only logged (see the
counterexample). -/
theorem c8_retry_linear_backoff_returns_none :
    ∀ (net : String → Nat → FetchOutcome) (url : String) (m : Nat), 1 ≤ m →
      (get_html_with_retry net url (some m)).attempts ≤ m ∧
      ((∀ a, a < m → ∀ h, net url a ≠ .success h) →
        get_html_with_retry net url (some m)
          = ⟨none, m, (List.range (m - 1)).map
              (fun i => REQUEST_DELAY * ((i + 1 : Nat) : Rat))⟩) := by
  intro net url m hm
  obtain ⟨n, rfl⟩ : ∃ n, m = n + 1 := ⟨m - 1, by omega⟩
  constructor
  · have h := retryGo_attempts_le (net url) REQUEST_DELAY (n + 1) (n + 1) 0
    simpa [get_html_with_retry] using h
  · intro hfail
    have h := retryGo_allfail (net url) REQUEST_DELAY (n + 1) (n + 1) 0
      (by omega) (by omega) hfail
    simpa [get_html_with_retry] using h

/-- Counterexample for C8: exhausting all attempts yields the same
bare `none` whatever the URL and whatever the class of the last error
— all-timeouts at one URL and all-connection-errors at another are
indistinguishable in the returned value, so it carries neither the URL
nor the error class. -/
theorem c8_counterexample_none_carries_nothing :
    (get_html_with_retry (fun _ _ => .timeout) "urlA" (some 3)).result
      = none ∧
    (get_html_with_retry (fun _ _ => .err "ConnectionError") "urlB"
      (some 3)).result = none ∧
    (get_html_with_retry (fun _ _ => .timeout) "urlA" (some 3)).result
      = (get_html_with_retry (fun _ _ => .err "ConnectionError") "urlB"
          (some 3)).result := by
  refine ⟨by decide, by decide, by decide⟩

/-- Witness for C8: the amended theorem applied to an all-timeout
transport with three retries — three attempts, sleeps of one and two
times the configured delay, and a `none` result. -/
theorem c8_retry_witness :
    (get_html_with_retry (fun _ _ => .timeout) "u" (some 3)).attempts ≤ 3 ∧
    get_html_with_retry (fun _ _ => .timeout) "u" (some 3)
      = ⟨none, 3, (List.range 2).map
          (fun i => REQUEST_DELAY * ((i + 1 : Nat) : Rat))⟩ := by
  have h := c8_retry_linear_backoff_returns_none (fun _ _ => .timeout) "u" 3
    (by omega)
  exact ⟨h.1, h.2 (fun a _ hh hc => FetchOutcome.noConfusion hc)⟩

theorem patchFirst_length (pred : Dict → Bool) (f : Dict → Dict) :
    ∀ rows : List Dict, (patchFirst pred f rows).1.length = rows.length
  | [] => rfl
  | r :: rs => by
    by_cases hp : pred r
    · simp [patchFirst, hp]
    · simp [patchFirst, hp, patchFirst_length pred f rs]

theorem patchFirst_getElem_of_not_pred (pred : Dict → Bool) (f : Dict → Dict) :
    ∀ (rows : List Dict) (j : Nat) (r : Dict), rows[j]? = some r →
      pred r = false → (patchFirst pred f rows).1[j]? = some r
  | [], j, r, h, _ => by simp at h
  | r0 :: rs, j, r, h, hpred => by
    by_cases hp : pred r0
    · cases j with
      | zero =>
        have hr : r0 = r := by simpa using h
        rw [hr] at hp
        rw [hpred] at hp
        exact absurd hp (by simp)
      | succ j =>
        simp only [patchFirst, hp, if_true, List.getElem?_cons_succ]
        simpa using h
    · cases j with
      | zero =>
        simp only [patchFirst, hp, if_false]
        simpa using h
      | succ j =>
        simp only [patchFirst, hp, if_false]
        have := patchFirst_getElem_of_not_pred pred f rs j r (by simpa using h) hpred
        simpa using this

theorem teamFold_length (gid : PyVal) :
    ∀ (ts rows pend trows tpend : List Dict),
      teamFold gid ts rows pend = some (trows, tpend) →
      trows.length = rows.length ∧ pend.length ≤ tpend.length := by
  intro ts
  induction ts with
  | nil =>
    intro rows pend trows tpend h
    simp only [teamFold, Option.some.injEq, Prod.mk.injEq] at h
    obtain ⟨rfl, rfl⟩ := h
    exact ⟨rfl, Nat.le_refl _⟩
  | cons t ts ih =>
    intro rows pend trows tpend h
    simp only [teamFold] at h
    cases htv : dget t "team" with
    | none => rw [htv] at h; simp at h
    | some tv =>
      rw [htv] at h
      simp only at h
      rcases hpf : patchFirst (teamRowPred gid tv)
          (patchRow teamGameStatsAttrs t) rows with ⟨rows2, found⟩
      rw [hpf] at h
      simp only at h
      cases found with
      | true =>
        simp only [if_true] at h
        have hlen : rows2.length = rows.length := by
          have := patchFirst_length (teamRowPred gid tv)
            (patchRow teamGameStatsAttrs t) rows
          rw [hpf] at this
          exact this
        obtain ⟨h1, h2⟩ := ih rows2 pend trows tpend h
        exact ⟨h1.trans hlen, h2⟩
      | false =>
        simp only [Bool.false_eq_true, if_false] at h
        cases hok : mkTeamGameStatsOk t with
        | false => rw [hok] at h; simp at h
        | true =>
          rw [hok] at h
          simp only [if_true] at h
          obtain ⟨h1, h2⟩ := ih rows (pend ++ [t]) trows tpend h
          refine ⟨h1, ?_⟩
          have : pend.length ≤ (pend ++ [t]).length := by simp
          omega

theorem teamFold_frame (gid : PyVal) :
    ∀ (ts rows pend trows tpend : List Dict),
      teamFold gid ts rows pend = some (trows, tpend) →
      ∀ (j : Nat) (r0 : Dict), rows[j]? = some r0 →
        (∀ t ∈ ts, ∀ tv, dget t "team" = some tv →
          teamRowPred gid tv r0 = false) →
        trows[j]? = some r0 := by
  intro ts
  induction ts with
  | nil =>
    intro rows pend trows tpend h j r0 hj _
    simp only [teamFold, Option.some.injEq, Prod.mk.injEq] at h
    obtain ⟨rfl, rfl⟩ := h
    exact hj
  | cons t ts ih =>
    intro rows pend trows tpend h j r0 hj hfail
    simp only [teamFold] at h
    cases htv : dget t "team" with
    | none => rw [htv] at h; simp at h
    | some tv =>
      rw [htv] at h
      simp only at h
      rcases hpf : patchFirst (teamRowPred gid tv)
          (patchRow teamGameStatsAttrs t) rows with ⟨rows2, found⟩
      rw [hpf] at h
      simp only at h
      have hnotpred : teamRowPred gid tv r0 = false :=
        hfail t (List.mem_cons_self t ts) tv htv
      have hfail' : ∀ t' ∈ ts, ∀ tv', dget t' "team" = some tv' →
          teamRowPred gid tv' r0 = false :=
        fun t' ht' tv' htv' => hfail t' (List.mem_cons_of_mem t ht') tv' htv'
      cases found with
      | true =>
        simp only [if_true] at h
        have hj2 : rows2[j]? = some r0 := by
          have := patchFirst_getElem_of_not_pred (teamRowPred gid tv)
            (patchRow teamGameStatsAttrs t) rows j r0 hj hnotpred
          rw [hpf] at this
          exact this
        exact ih rows2 pend trows tpend h j r0 hj2 hfail'
      | false =>
        simp only [Bool.false_eq_true, if_false] at h
        cases hok : mkTeamGameStatsOk t with
        | false => rw [hok] at h; simp at h
        | true =>
          rw [hok] at h
          simp only [if_true] at h
          exact ih rows (pend ++ [t]) trows tpend h j r0 hj hfail'

theorem playerFold_length (gid : PyVal) :
    ∀ (ts rows pend trows tpend : List Dict),
      playerFold gid ts rows pend = some (trows, tpend) →
      trows.length = rows.length ∧ pend.length ≤ tpend.length := by
  intro ts
  induction ts with
  | nil =>
    intro rows pend trows tpend h
    simp only [playerFold, Option.some.injEq, Prod.mk.injEq] at h
    obtain ⟨rfl, rfl⟩ := h
    exact ⟨rfl, Nat.le_refl _⟩
  | cons t ts ih =>
    intro rows pend trows tpend h
    simp only [playerFold] at h
    cases hpn : dget t "player_name" with
    | none => rw [hpn] at h; simp at h
    | some pn =>
      cases htv : dget t "team" with
      | none => rw [hpn, htv] at h; simp at h
      | some tv =>
        rw [hpn, htv] at h
        simp only at h
        rcases hpf : patchFirst (playerRowPred gid pn tv)
            (patchRow playerGameStatsAttrs t) rows with ⟨rows2, found⟩
        rw [hpf] at h
        simp only at h
        cases found with
        | true =>
          simp only [if_true] at h
          have hlen : rows2.length = rows.length := by
            have := patchFirst_length (playerRowPred gid pn tv)
              (patchRow playerGameStatsAttrs t) rows
            rw [hpf] at this
            exact this
          obtain ⟨h1, h2⟩ := ih rows2 pend trows tpend h
          exact ⟨h1.trans hlen, h2⟩
        | false =>
          simp only [Bool.false_eq_true, if_false] at h
          cases hok : mkPlayerGameStatsOk t with
          | false => rw [hok] at h; simp at h
          | true =>
            rw [hok] at h
            simp only [if_true] at h
            obtain ⟨h1, h2⟩ := ih rows (pend ++ [t]) trows tpend h
            refine ⟨h1, ?_⟩
            have : pend.length ≤ (pend ++ [t]).length := by simp
            omega

theorem playerFold_frame (gid : PyVal) :
    ∀ (ts rows pend trows tpend : List Dict),
      playerFold gid ts rows pend = some (trows, tpend) →
      ∀ (j : Nat) (r0 : Dict), rows[j]? = some r0 →
        (∀ t ∈ ts, ∀ pn tv, dget t "player_name" = some pn →
          dget t "team" = some tv → playerRowPred gid pn tv r0 = false) →
        trows[j]? = some r0 := by
  intro ts
  induction ts with
  | nil =>
    intro rows pend trows tpend h j r0 hj _
    simp only [playerFold, Option.some.injEq, Prod.mk.injEq] at h
    obtain ⟨rfl, rfl⟩ := h
    exact hj
  | cons t ts ih =>
    intro rows pend trows tpend h j r0 hj hfail
    simp only [playerFold] at h
    cases hpn : dget t "player_name" with
    | none => rw [hpn] at h; simp at h
    | some pn =>
      cases htv : dget t "team" with
      | none => rw [hpn, htv] at h; simp at h
      | some tv =>
        rw [hpn, htv] at h
        simp only at h
        rcases hpf : patchFirst (playerRowPred gid pn tv)
            (patchRow playerGameStatsAttrs t) rows with ⟨rows2, found⟩
        rw [hpf] at h
        simp only at h
        have hnotpred : playerRowPred gid pn tv r0 = false :=
          hfail t (List.mem_cons_self t ts) pn tv hpn htv
        have hfail' : ∀ t' ∈ ts, ∀ pn' tv', dget t' "player_name" = some pn' →
            dget t' "team" = some tv' → playerRowPred gid pn' tv' r0 = false :=
          fun t' ht' pn' tv' hpn' htv' =>
            hfail t' (List.mem_cons_of_mem t ht') pn' tv' hpn' htv'
        cases found with
        | true =>
          simp only [if_true] at h
          have hj2 : rows2[j]? = some r0 := by
            have := patchFirst_getElem_of_not_pred (playerRowPred gid pn tv)
              (patchRow playerGameStatsAttrs t) rows j r0 hj hnotpred
            rw [hpf] at this
            exact this
          exact ih rows2 pend trows tpend h j r0 hj2 hfail'
        | false =>
          simp only [Bool.false_eq_true, if_false] at h
          cases hok : mkPlayerGameStatsOk t with
          | false => rw [hok] at h; simp at h
          | true =>
            rw [hok] at h
            simp only [if_true] at h
            exact ih rows (pend ++ [t]) trows tpend h j r0 hj hfail'

/-- C9 (amended): on an existing game, when every team/player
sub-record of the payload either matches an existing row or constructs
successfully (and the commit succeeds), `update_game_data` overwrites
only the score/outcome fields of the stored game row, patches matched
rows in place, appends unmatched sub-records, leaves every stored row
whose natural sub-key is matched by no payload entry unchanged, and
deletes nothing; a sub-record that neither matches nor constructs
(e.g. a parser team dict with its `mp` key) aborts and rolls back the
whole update (see the counterexample). -/
theorem c9_update_patches_or_inserts :
    ∀ (db : Store) (g : GameData) (gid : PyVal) (i : Nat)
      (hs aws hw : PyVal) (trows tpend prows ppend : List Dict),
      dget g.info "game_id" = some gid →
      findIdxD (fun r => dget r "game_id" == some gid) db.games = some i →
      dget g.info "home_score" = some hs →
      dget g.info "away_score" = some aws →
      dget g.info "home_won" = some hw →
      teamFold gid g.getTeamStats db.teamStats [] = some (trows, tpend) →
      playerFold gid g.getPlayerStats db.playerStats [] = some (prows, ppend) →
      (update_game_data false db g
        = { games := db.games.set i (dset (dset (dset (db.games.getD i [])
              "home_score" hs) "away_score" aws) "home_won" hw),
            teamStats := trows ++ tpend,
            playerStats := prows ++ ppend,
            officials := db.officials }) ∧
      (∀ k, k ≠ "home_score" → k ≠ "away_score" → k ≠ "home_won" →
        dget (dset (dset (dset (db.games.getD i []) "home_score" hs)
          "away_score" aws) "home_won" hw) k = dget (db.games.getD i []) k) ∧
      dget (dset (dset (dset (db.games.getD i []) "home_score" hs)
        "away_score" aws) "home_won" hw) "home_score" = some hs ∧
      dget (dset (dset (dset (db.games.getD i []) "home_score" hs)
        "away_score" aws) "home_won" hw) "away_score" = some aws ∧
      dget (dset (dset (dset (db.games.getD i []) "home_score" hs)
        "away_score" aws) "home_won" hw) "home_won" = some hw ∧
      (∀ j, j ≠ i → (update_game_data false db g).games[j]? = db.games[j]?) ∧
      trows.length = db.teamStats.length ∧
      prows.length = db.playerStats.length ∧
      (∀ (j : Nat) (r0 : Dict), db.teamStats[j]? = some r0 →
        (∀ t ∈ g.getTeamStats, ∀ tv, dget t "team" = some tv →
          teamRowPred gid tv r0 = false) →
        trows[j]? = some r0) ∧
      (∀ (j : Nat) (r0 : Dict), db.playerStats[j]? = some r0 →
        (∀ t ∈ g.getPlayerStats, ∀ pn tv, dget t "player_name" = some pn →
          dget t "team" = some tv → playerRowPred gid pn tv r0 = false) →
        prows[j]? = some r0) ∧
      (update_game_data false db g).officials = db.officials := by
  intro db g gid i hs aws hw trows tpend prows ppend
  intro hgid hidx hh1 hh2 hh3 htf hpf
  have hmain : update_game_data false db g
      = { games := db.games.set i (dset (dset (dset (db.games.getD i [])
            "home_score" hs) "away_score" aws) "home_won" hw),
          teamStats := trows ++ tpend,
          playerStats := prows ++ ppend,
          officials := db.officials } := by
    simp only [update_game_data, hgid, hidx, hh1, hh2, hh3, htf, hpf,
      Bool.false_eq_true, if_false]
  refine ⟨hmain, ?_, ?_, ?_, ?_, ?_, ?_, ?_, ?_, ?_, ?_⟩
  · intro k hk1 hk2 hk3
    rw [dget_dset_ne _ _ _ _ hk3, dget_dset_ne _ _ _ _ hk2,
      dget_dset_ne _ _ _ _ hk1]
  · rw [dget_dset_ne _ _ _ _ (by decide), dget_dset_ne _ _ _ _ (by decide),
      dget_dset_self]
  · rw [dget_dset_ne _ _ _ _ (by decide), dget_dset_self]
  · rw [dget_dset_self]
  · intro j hj
    rw [hmain]
    exact List.getElem?_set_ne (fun he => hj he.symm)
  · exact (teamFold_length gid g.getTeamStats db.teamStats [] trows tpend htf).1
  · exact (playerFold_length gid g.getPlayerStats db.playerStats [] prows ppend hpf).1
  · intro j r0 hj hfl
    exact teamFold_frame gid g.getTeamStats db.teamStats [] trows tpend htf j r0 hj hfl
  · intro j r0 hj hfl
    exact playerFold_frame gid g.getPlayerStats db.playerStats [] prows ppend hpf j r0 hj hfl
  · rw [hmain]

/-- A stored game row for the C9 counterexample. -/
def c9ce_gameRow : Dict :=
  [("game_id", .vStr "202312010NYK"), ("home_score", .vInt 90),
   ("away_score", .vInt 80), ("home_won", .vBool true)]

/-- A store holding that game and no team rows. -/
def c9ce_db : Store := ⟨[c9ce_gameRow], [], [], []⟩

/-- A refresh payload whose team sub-record carries the parser's `mp`
key and matches no stored row. -/
def c9ce_payload : GameData :=
  { info := [("game_id", .vStr "202312010NYK"), ("home_score", .vInt 100),
     ("away_score", .vInt 95), ("home_won", .vBool true)],
    hasNested := true,
    team_stats := [[("game_id", .vStr "202312010NYK"),
      ("team", .vStr "home"), ("is_home", .vBool true), ("mp", .vInt 0)]],
    player_stats := [], officials := [] }

/-- Counterexample for C9: a payload team sub-record that matches no
stored row and cannot construct (it carries `mp`) makes the whole
update roll back — the score fields are not overwritten and no row is
inserted, contradicting "update overwrites ... and for each sub-record
either patches ... or inserts a new row". -/
theorem c9_counterexample_insert_failure_rolls_back :
    update_game_data false c9ce_db c9ce_payload = c9ce_db ∧
    dget c9ce_payload.info "home_score" = some (.vInt 100) ∧
    dget ((update_game_data false c9ce_db c9ce_payload).games.headD [])
      "home_score" = some (.vInt 90) ∧
    (update_game_data false c9ce_db c9ce_payload).teamStats = [] ∧
    keyMem (c9ce_payload.team_stats.headD []) "mp" = true ∧
    mkTeamGameStatsOk (c9ce_payload.team_stats.headD []) = false := by
  refine ⟨by decide, by decide, by decide, by decide, by decide, by decide⟩

/-- The stored game row of the C9 witness store. -/
def c9w_gameRow : Dict :=
  [("game_id", .vStr "202312010NYK"), ("home_score", .vInt 1),
   ("away_score", .vInt 2), ("home_won", .vBool false), ("season", .vInt 2023)]

/-- A stored team row the payload matches. -/
def c9w_teamHome : Dict :=
  [("game_id", .vStr "202312010NYK"), ("team", .vStr "home"), ("pts", .vInt 50)]

/-- A stored team row of another game, matched by nothing. -/
def c9w_teamStray : Dict :=
  [("game_id", .vStr "OTHER"), ("team", .vStr "home"), ("pts", .vInt 40)]

/-- A stored player row the payload does not mention. -/
def c9w_playerRow : Dict :=
  [("game_id", .vStr "202312010NYK"), ("team", .vStr "home"),
   ("player_name", .vStr "Player A"), ("pts", .vInt 10)]

/-- The C9 witness store. -/
def c9w_db : Store :=
  ⟨[c9w_gameRow], [c9w_teamHome, c9w_teamStray], [c9w_playerRow], []⟩

/-- The C9 witness payload: one team sub-record patching the stored
home row, one inserting an away row, one player sub-record inserting. -/
def c9w_payload : GameData :=
  { info := [("game_id", .vStr "202312010NYK"), ("home_score", .vInt 3),
     ("away_score", .vInt 2), ("home_won", .vBool true)],
    hasNested := true,
    team_stats := [[("game_id", .vStr "202312010NYK"),
        ("team", .vStr "home"), ("pts", .vInt 55)],
      [("game_id", .vStr "202312010NYK"),
        ("team", .vStr "away"), ("pts", .vInt 44)]],
    player_stats := [[("game_id", .vStr "202312010NYK"),
      ("team", .vStr "home"), ("player_name", .vStr "Player B"),
      ("pts", .vInt 9)]],
    officials := [] }

/-- The committed team rows after the witness update's patching. -/
def c9w_trows : List Dict :=
  [[("game_id", .vStr "202312010NYK"), ("team", .vStr "home"),
    ("pts", .vInt 55)], c9w_teamStray]

/-- The team row inserted by the witness update. -/
def c9w_tpend : List Dict :=
  [[("game_id", .vStr "202312010NYK"), ("team", .vStr "away"),
    ("pts", .vInt 44)]]

/-- The committed player rows after the witness update's patching. -/
def c9w_prows : List Dict := [c9w_playerRow]

/-- The player row inserted by the witness update. -/
def c9w_ppend : List Dict :=
  [[("game_id", .vStr "202312010NYK"), ("team", .vStr "home"),
    ("player_name", .vStr "Player B"), ("pts", .vInt 9)]]

/-- Witness for C9: the amended theorem applied to a concrete store
and payload — patch, insert, untouched stray row, preserved player
row, and an untouched non-score game field. -/
theorem c9_update_witness :
    (update_game_data false c9w_db c9w_payload
      = { games := c9w_db.games.set 0 (dset (dset (dset
            (c9w_db.games.getD 0 []) "home_score" (.vInt 3))
            "away_score" (.vInt 2)) "home_won" (.vBool true)),
          teamStats := c9w_trows ++ c9w_tpend,
          playerStats := c9w_prows ++ c9w_ppend,
          officials := c9w_db.officials }) ∧
    c9w_trows[1]? = some c9w_teamStray ∧
    c9w_prows[0]? = some c9w_playerRow ∧
    c9w_trows.length = c9w_db.teamStats.length ∧
    dget (dset (dset (dset (c9w_db.games.getD 0 []) "home_score" (.vInt 3))
      "away_score" (.vInt 2)) "home_won" (.vBool true)) "season"
      = dget (c9w_db.games.getD 0 []) "season" := by
  have h := c9_update_patches_or_inserts c9w_db c9w_payload
    (.vStr "202312010NYK") 0 (.vInt 3) (.vInt 2) (.vBool true)
    c9w_trows c9w_tpend c9w_prows c9w_ppend
    rfl (by decide) rfl rfl rfl (by decide) (by decide)
  refine ⟨h.1, ?_, ?_, h.2.2.2.2.2.2.1,
    h.2.1 "season" (by decide) (by decide) (by decide)⟩
  · refine h.2.2.2.2.2.2.2.2.1 1 c9w_teamStray (by decide) ?_
    intro t ht tv htv
    fin_cases ht
    · obtain rfl := Option.some.inj htv
      decide
    · obtain rfl := Option.some.inj htv
      decide
  · refine h.2.2.2.2.2.2.2.2.2.1 0 c9w_playerRow (by decide) ?_
    intro t ht pn tv hpn htv
    fin_cases ht
    obtain rfl := Option.some.inj hpn
    obtain rfl := Option.some.inj htv
    decide
